import Mathlib

/-!
Shallow embedding of cctail (src/cctail.ts): the directory-listing scanner
(getThatLogList), the non-interactive and interactive discovery paths
(dontInteract / interact), the startup gate (run), and the polling /
rollover / refresh session engine (pollLogs).

Modelling conventions.

Time.  A moment is a pair (day, ms): `day` is the UTC calendar day written as
its YYYYMMDD numeral, `ms` a millisecond offset inside that day.  On valid
calendar days the numeral order coincides with chronological order, so the
source's day-granularity comparisons (isAfter _ 'day', isSame _ 'day') are
numeral comparisons, and full-resolution comparisons are lexicographic on
(day, ms).  The process-local clock (moment()) is modelled as equal to the
UTC clock (moment.utc()), i.e. the model fixes the TZ environment to UTC.

Filename dates.  The source runs dateRegex = (\d{8})\.(log|csv) over the
entry name and feeds the resulting match ARRAY to moment(filedate,
"YYYYMMDD").  moment stringifies the array ("<m>,<digits>,<ext>") and the
format parse then reads YYYY, MM, DD from the leading 8 digits, so the
parse succeeds exactly on the 8-digit group of the FIRST occurrence of
8 digits followed by ".log" or ".csv" in the name; a failed regex (null)
or an out-of-range month/day gives an invalid moment, whose isSame with
any moment is false.  Since "today" is a valid calendar day, the source's
test extractedDate.isSame(moment.utc(), 'day') is equivalent to: the first
such 8-digit group equals today's YYYYMMDD numeral.  `extract8` below
computes that group.

Collaborators.  logfetcher, logparser and the sinks are external to the
core (spec section 1).  Their interactions are recorded as an ordered
event trace per poll cycle: listing fetches, content fetches, the
re-authorization call (with the token value visible to it), the emission
step and the rollover warning.  logfetcher.isUsingAPI(profile),
errorcount and errorlimit are modelled as an opaque fetcher state read by
the orchestrator, and logfetcher.authorize installing a fresh token is
modelled by an environment-supplied token value.

Failure.  pollLogs dereferences fileobjs[0].date without a guard; a cycle
entered with an empty list and doRollover = false throws a TypeError in
the source and is modelled as the step function returning none.
-/

namespace Cctail

/-- A moment: UTC calendar day as its YYYYMMDD numeral plus a millisecond
offset within the day. -/
structure JsMoment where
  day : Nat
  ms  : Nat
deriving Repr, DecidableEq

/-- moment.utc().isAfter(other, 'day'): strict comparison at day granularity. -/
def JsMoment.isAfterDay (a b : JsMoment) : Bool := b.day < a.day

/-- Full-resolution isAfter (used by the codeprofiler newest/last-sent logic). -/
def JsMoment.isAfter (a b : JsMoment) : Bool :=
  b.day < a.day || (a.day == b.day && b.ms < a.ms)

/-- Full-resolution isSameOrAfter (used by the refresh-due check). -/
def JsMoment.isSameOrAfter (a b : JsMoment) : Bool := !(JsMoment.isAfter b a)

/-- moment().add(seconds, 's'), as used to schedule the next log-list refresh.
The session claims below depend only on whether the refresh timestamp is set
and on its comparison within one day, never on cross-day carry. -/
def JsMoment.addSeconds (m : JsMoment) (s : Nat) : JsMoment := { m with ms := m.ms + s * 1000 }

/-- date.unix(): the epoch-second clock used by the interactive sort comparator
(monotone in (day, ms) whenever ms stays below one day). -/
def JsMoment.unixSec (m : JsMoment) : Nat := (m.day * 86400000 + m.ms) / 1000

/-- Decimal digit test on a character. -/
def isDigitChar (c : Char) : Bool := 47 < c.toNat && c.toNat < 58

/-- Numeral value of a digit string. -/
def digitsToNat (l : List Char) : Nat := l.foldl (fun a c => a * 10 + (c.toNat - 48)) 0

/-- Does dateRegex (\d{8})\.(log|csv) match at the very start of this
character list?  If so, return the value of the 8-digit group. -/
def dateSuffixAt : List Char → Option Nat
  | d1 :: d2 :: d3 :: d4 :: d5 :: d6 :: d7 :: d8 :: '.' :: e1 :: e2 :: e3 :: _ =>
    if ([d1, d2, d3, d4, d5, d6, d7, d8].all isDigitChar)
        && (((e1 == 'l') && (e2 == 'o') && (e3 == 'g'))
            || ((e1 == 'c') && (e2 == 's') && (e3 == 'v'))) then
      some (digitsToNat [d1, d2, d3, d4, d5, d6, d7, d8])
    else
      none
  | _ => none

/-- Leftmost match of dateRegex over a character list. -/
def extract8Chars : List Char → Option Nat
  | [] => none
  | c :: rest =>
    match dateSuffixAt (c :: rest) with
    | some n => some n
    | none => extract8Chars rest

/-- The 8-digit group of the first occurrence of dateRegex (\d{8})\.(log|csv)
in a filename; none when the regex does not match (the source then builds an
invalid moment, which compares unequal to every day). -/
def extract8 (name : String) : Option Nat := extract8Chars name.data

/-- name.substr(-4): the last four characters (the whole string when shorter). -/
def jsLast4 (s : String) : String := String.mk (s.data.drop (s.data.length - 4))

/-- Characters before the first '-', or none when there is no '-'. -/
def beforeDashChars : List Char → Option (List Char)
  | [] => none
  | c :: rest => if c == '-' then some [] else (beforeDashChars rest).map (fun l => c :: l)

/-- log.substr(0, log.indexOf('-')): the text before the first hyphen; the
empty string when there is no hyphen (substr with negative length). -/
def beforeFirstDash (s : String) : String :=
  match beforeDashChars s.data with
  | some l => String.mk l
  | none => ""

/-- Array.prototype.indexOf on a string list: index of the first occurrence,
-1 when absent. -/
def jsIndexOf (l : List String) (x : String) : Int :=
  match l with
  | [] => -1
  | y :: rest =>
    if y == x then 0
    else
      let r := jsIndexOf rest x
      if r == -1 then -1 else r + 1

/-- String.prototype.endsWith restricted to what the source needs. -/
def strEndsWith (s t : String) : Bool := t.data.isSuffixOf s.data

/-- One remote log file as tracked by the session (lib/types LogFile as used
by cctail.ts): name, human-readable size string, the date parsed from the
listing's date column, the run's debug flag, and the mutable byte-offset
watermark `size` (none models the field being unset; rollover recovery
writes the sentinel -1). -/
structure LogFile where
  log : String
  size_string : String
  date : JsMoment
  debug : Bool
  size : Option Int := none
deriving Repr, DecidableEq

/-- One row extracted from the WebDAV listing document by the scraping
regexp of getThatLogList: match[1] (href name), match[2] (size text) and the
date column match[3] already parsed by moment.utc. -/
structure RawEntry where
  name : String
  sizeStr : String
  dateCol : JsMoment
deriving Repr, DecidableEq

/-- getThatLogList's while loop over the regexp matches: keep an entry when
its last four characters equal the requested suffix and its filename-embedded
date (see extract8) is the current UTC day; the kept descriptor stores the
listing's date-column moment, not the filename date. -/
def getThatLogList (today : Nat) (dbg : Bool) (filesuffix : String) :
    List RawEntry → List LogFile
  | [] => []
  | e :: rest =>
    if jsLast4 e.name == filesuffix && extract8 e.name == some today then
      { log := e.name, size_string := e.sizeStr, date := e.dateCol, debug := dbg } ::
        getThatLogList today dbg filesuffix rest
    else
      getThatLogList today dbg filesuffix rest

/-- Follows the spec's words, for comparison with the source: "an 8-digit
date embedded in the filename immediately before the suffix" — the name must
end with the suffix and the eight characters right before it must be digits. -/
def specDateImmediatelyBeforeSuffix (name : String) (suffix : String) : Option Nat :=
  let cs := name.data
  let sfx := suffix.data
  if sfx.length + 8 ≤ cs.length then
    let stemLen := cs.length - sfx.length
    if cs.drop stemLen = sfx then
      let digits := (cs.take stemLen).drop (stemLen - 8)
      if digits.all isDigitChar then some (digitsToNat digits) else none
    else none
  else none

/-- The active profile as cctail.ts reads it (fields the core consults). -/
structure DwJson where
  hostname : String
  token : Option String
  log_types : Option (List String)
deriving Repr, DecidableEq

/-- The log_types allow-list filter applied by dontInteract (lines 94-103):
active only when log_types is present and non-empty; keeps files whose text
before the first hyphen occurs in the list. -/
def allowFilter (profile : DwJson) (fileobjs : List LogFile) : List LogFile :=
  match profile.log_types with
  | some ts =>
    if 0 < ts.length then
      fileobjs.filter (fun f => jsIndexOf ts (beforeFirstDash f.log) != -1)
    else fileobjs
  | none => fileobjs

/-- The codeprofiler guard of dontInteract line 105, exactly as written in
the source: !profile.log_types || profile.log_types.indexOf('codeprofiler')
> 0.  Note the comparison is > 0, not != -1. -/
def cpGuard (profile : DwJson) : Bool :=
  match profile.log_types with
  | none => true
  | some ts => 0 < jsIndexOf ts "codeprofiler"

/-- cpfileobjs.reduce((newest, compare) => newest.date.isAfter(compare.date)
? newest : compare): fold from the left starting at the first element. -/
def reduceNewest (h : LogFile) : List LogFile → LogFile
  | [] => h
  | c :: cs => reduceNewest (if h.date.isAfter c.date then h else c) cs

/-- The send condition of dontInteract line 109: no profiler file sent yet,
or the newest one strictly newer than the last sent. -/
def shouldSendCp (latestCodeprofilerLogSent : Option LogFile) (newestcpfile : LogFile) : Bool :=
  match latestCodeprofilerLogSent with
  | none => true
  | some l => newestcpfile.date.isAfter l.date

/-- The listing documents the fetcher would return this cycle, already taken
through the scraping regexp: one for the plain log listing, one for the
codeprofiler listing. -/
structure ListingEnv where
  logListing : List RawEntry
  csvListing : List RawEntry
deriving Repr, DecidableEq

/-- Observable collaborator interactions of one poll cycle, in program
order. -/
inductive Event where
  | errorReset
  | tokenClear
  | authorizeCall (token : Option String)
  | fetchList (category : Option String)
  | refreshList
  | fetchContent (log : String)
  | emit
  | warnNoLogs
deriving Repr, DecidableEq

/-- Result of one dontInteract call: the produced log list and the globals
it (re)assigns — latestCodeprofilerLogSent and nextLogRefresh — plus its
listing-fetch events. -/
structure DontInteractResult where
  logx : List LogFile
  latestCodeprofilerLogSent : Option LogFile
  nextLogRefresh : JsMoment
  events : List Event
deriving Repr, DecidableEq

/-- dontInteract with the profile already resolved (the in-session form used
by the poll loop's refresh and rollover paths; startup profile resolution is
modelled separately by resolveNonInteractive): schedule the next refresh,
discover today's .log files, apply the allow-list, then — under cpGuard —
discover the .csv profiler listing, keep only the newest file, and append it
only when shouldSendCp, updating the last-sent marker. -/
def dontInteract (today : Nat) (now : JsMoment) (refreshLogListSeconds : Nat) (dbg : Bool)
    (env : ListingEnv) (profile : DwJson) (latestCodeprofilerLogSent : Option LogFile) :
    DontInteractResult :=
  let nextLogRefresh := now.addSeconds refreshLogListSeconds
  let fileobjs := getThatLogList today dbg ".log" env.logListing
  let logx := allowFilter profile fileobjs
  if cpGuard profile then
    let events := [Event.fetchList none, Event.fetchList (some "codeprofiler")]
    match getThatLogList today dbg ".csv" env.csvListing with
    | [] =>
      { logx := logx
        latestCodeprofilerLogSent := latestCodeprofilerLogSent
        nextLogRefresh := nextLogRefresh
        events := events }
    | c :: cs =>
      let newestcpfile := reduceNewest c cs
      if shouldSendCp latestCodeprofilerLogSent newestcpfile then
        { logx := logx ++ [newestcpfile]
          latestCodeprofilerLogSent := some newestcpfile
          nextLogRefresh := nextLogRefresh
          events := events }
      else
        { logx := logx
          latestCodeprofilerLogSent := latestCodeprofilerLogSent
          nextLogRefresh := nextLogRefresh
          events := events }
  else
    { logx := logx
      latestCodeprofilerLogSent := latestCodeprofilerLogSent
      nextLogRefresh := nextLogRefresh
      events := [Event.fetchList none] }

/-- Insert a file into a list kept in descending date.unix() order. -/
def insertByDateDesc (f : LogFile) : List LogFile → List LogFile
  | [] => [f]
  | g :: rest =>
    if g.date.unixSec < f.date.unixSec then f :: g :: rest else g :: insertByDateDesc f rest

/-- fileobjs.sort((a, b) => b.date.unix() - a.date.unix()): descending by
epoch seconds (order among equal keys is irrelevant to every claim). -/
def sortByDateDesc : List LogFile → List LogFile
  | [] => []
  | f :: rest => insertByDateDesc f (sortByDateDesc rest)

/-- The selection phase of interact: on cancellation (ctrl+c leaves
logselection.value undefined) nothing is pushed; otherwise the chosen
indices of the displayed list are collected in order. -/
def interactSelect (fileobjs : List LogFile) (selection : Option (List Nat)) : List LogFile :=
  match selection with
  | none => []
  | some idxs =>
    idxs.foldl (fun acc i => match fileobjs[i]? with | some f => acc ++ [f] | none => acc) []

/-- Outcome of the run() gate at lines 58-63. -/
inductive RunOutcome where
  | exit (code : Int)
  | proceed (fileobjs : List LogFile)
deriving Repr, DecidableEq

/-- run() after discovery: an empty selection exits with process.exit(-1)
(observed status 255); otherwise polling starts on the selected files. -/
def runGate (fileobjs : List LogFile) : RunOutcome :=
  if fileobjs.length == 0 then RunOutcome.exit (-1) else RunOutcome.proceed fileobjs

/-- Profile map lookup (profiles[name]). -/
def lookupProfile : List (String × DwJson) → String → Option DwJson
  | [], _ => none
  | (k, v) :: rest, nm => if k == nm then some v else lookupProfile rest nm

/-- Outcome of non-interactive profile resolution. -/
inductive ResolveOutcome where
  | exit (code : Int)
  | ok (profile : DwJson)
deriving Repr, DecidableEq

/-- dontInteract's profile resolution (lines 67-79): a single profile is
taken unconditionally; otherwise a missing name or an unknown name is fatal
(process.exit(-1)). -/
def resolveNonInteractive (profiles : List (String × DwJson)) (profilename : Option String) :
    ResolveOutcome :=
  match profiles with
  | [single] => ResolveOutcome.ok single.2
  | _ =>
    match profilename with
    | none => ResolveOutcome.exit (-1)
    | some nm =>
      match lookupProfile profiles nm with
      | none => ResolveOutcome.exit (-1)
      | some p => ResolveOutcome.ok p

/-- The fetcher-owned state the orchestrator reads: whether this profile
goes through the Client API, the rolling error counter and its limit. -/
structure Fetcher where
  usingAPI : Bool
  errorcount : Nat
  errorlimit : Nat
deriving Repr, DecidableEq

/-- The session globals of cctail.ts owned by the poll loop: active profile,
fetcher state, tracked descriptor list, rollover flag, scheduled refresh
timestamp (none while unassigned), profiler last-sent marker, the
interactive-mode flag, the refresh interval and the debug flag. -/
structure SessionState where
  profile : DwJson
  fetcher : Fetcher
  fileobjs : List LogFile
  doRollover : Bool
  nextLogRefresh : Option JsMoment
  latestCodeprofilerLogSent : Option LogFile
  interactive : Bool
  refreshLogListSeconds : Nat
  dbg : Bool
deriving Repr, DecidableEq

/-- The world one poll cycle interacts with: the current time, the listing
documents a discovery would see, the token logfetcher.authorize would
install, and the user's picks if the interactive prompt runs on rollover
(none = cancelled). -/
structure PollEnv where
  now : JsMoment
  listings : ListingEnv
  authTokenResult : Option String
  interactSelection : Option (List Nat)
deriving Repr, DecidableEq

/-- The error-budget condition of pollLogs line 247:
logfetcher.isUsingAPI(profile) && logfetcher.errorcount > logfetcher.errorlimit. -/
def errBudgetFire (st : SessionState) : Bool :=
  st.fetcher.usingAPI && decide (st.fetcher.errorlimit < st.fetcher.errorcount)

/-- Fetcher state after the error-budget block (line 249 zeroes the counter). -/
def fetcherAfterBudget (st : SessionState) : Fetcher :=
  if errBudgetFire st then { st.fetcher with errorcount := 0 } else st.fetcher

/-- Profile after the error-budget block: the token is nulled (line 250) and
then logfetcher.authorize installs the environment-supplied token. -/
def profileAfterBudget (env : PollEnv) (st : SessionState) : DwJson :=
  if errBudgetFire st then { st.profile with token := env.authTokenResult } else st.profile

/-- Events of the error-budget block, in source order: counter reset, token
clear, then the authorize call, which sees the just-nulled token. -/
def budgetEvents (st : SessionState) : List Event :=
  if errBudgetFire st then
    [Event.errorReset, Event.tokenClear, Event.authorizeCall none]
  else []

/-- The refresh condition of pollLogs line 260: nextLogRefresh is set and
the clock has reached it. -/
def refreshDue (st : SessionState) (now : JsMoment) : Bool :=
  match st.nextLogRefresh with
  | none => false
  | some t => now.isSameOrAfter t

/-- The refresh merge of pollLogs lines 263-268: push each newly discovered
file whose name is not already tracked (checking against the list as it
grows). -/
def mergeByName : List LogFile → List LogFile → List LogFile
  | olds, [] => olds
  | olds, n :: rest =>
    if olds.any (fun o => o.log == n.log) then mergeByName olds rest
    else mergeByName (olds ++ [n]) rest

/-- The codeprofiler consumption of pollLogs lines 283-288: splice out the
first descriptor whose name ends with "csv". -/
def removeFirstCsv : List LogFile → List LogFile
  | [] => []
  | f :: rest => if strEndsWith f.log "csv" then rest else f :: removeFirstCsv rest

/-- The non-rollover body of pollLogs (lines 254-288) given the head
descriptor f0: detect rollover against f0's stored date (the fetch, emit and
codeprofiler-removal steps still run on the detection cycle — the source
falls through to them after setting the flag); otherwise run the scheduled
refresh when due; in all cases fetch content for every tracked descriptor,
emit, and consume the profiler file. -/
def normalBranch (env : PollEnv) (st : SessionState) (f0 : LogFile) :
    SessionState × List Event :=
  if env.now.isAfterDay f0.date then
    ({ st with
        profile := profileAfterBudget env st
        fetcher := fetcherAfterBudget st
        fileobjs := removeFirstCsv st.fileobjs
        doRollover := true },
      budgetEvents st ++ (st.fileobjs.map (fun l => Event.fetchContent l.log) ++ [Event.emit]))
  else if refreshDue st env.now then
    let r := dontInteract env.now.day env.now st.refreshLogListSeconds st.dbg env.listings
      (profileAfterBudget env st) st.latestCodeprofilerLogSent
    let merged := mergeByName st.fileobjs r.logx
    ({ st with
        profile := profileAfterBudget env st
        fetcher := fetcherAfterBudget st
        fileobjs := removeFirstCsv merged
        nextLogRefresh := some r.nextLogRefresh
        latestCodeprofilerLogSent := r.latestCodeprofilerLogSent },
      budgetEvents st ++ ([Event.refreshList] ++ r.events
        ++ merged.map (fun l => Event.fetchContent l.log) ++ [Event.emit]))
  else
    ({ st with
        profile := profileAfterBudget env st
        fetcher := fetcherAfterBudget st
        fileobjs := removeFirstCsv st.fileobjs },
      budgetEvents st ++ (st.fileobjs.map (fun l => Event.fetchContent l.log) ++ [Event.emit]))

/-- The rollover body of pollLogs (lines 290-305): re-run the startup
discovery path matching the run's mode; a non-empty result clears the flag
and resets every watermark to -1; an empty result logs a warning and leaves
the flag set for the next cycle. -/
def rolloverBranch (env : PollEnv) (st : SessionState) : SessionState × List Event :=
  if st.interactive then
    let files := interactSelect
      (sortByDateDesc (getThatLogList env.now.day st.dbg ".log" env.listings.logListing))
      env.interactSelection
    if files.isEmpty then
      ({ st with
          profile := profileAfterBudget env st
          fetcher := fetcherAfterBudget st
          fileobjs := [] },
        budgetEvents st ++ [Event.fetchList none, Event.warnNoLogs])
    else
      ({ st with
          profile := profileAfterBudget env st
          fetcher := fetcherAfterBudget st
          fileobjs := files.map (fun f => { f with size := some (-1) })
          doRollover := false },
        budgetEvents st ++ [Event.fetchList none])
  else
    let r := dontInteract env.now.day env.now st.refreshLogListSeconds st.dbg env.listings
      (profileAfterBudget env st) st.latestCodeprofilerLogSent
    if r.logx.isEmpty then
      ({ st with
          profile := profileAfterBudget env st
          fetcher := fetcherAfterBudget st
          fileobjs := []
          nextLogRefresh := some r.nextLogRefresh
          latestCodeprofilerLogSent := r.latestCodeprofilerLogSent },
        budgetEvents st ++ (r.events ++ [Event.warnNoLogs]))
    else
      ({ st with
          profile := profileAfterBudget env st
          fetcher := fetcherAfterBudget st
          fileobjs := r.logx.map (fun f => { f with size := some (-1) })
          doRollover := false
          nextLogRefresh := some r.nextLogRefresh
          latestCodeprofilerLogSent := r.latestCodeprofilerLogSent },
        budgetEvents st ++ r.events)

/-- One pollLogs cycle.  none models the TypeError the source throws when a
non-rollover cycle starts with an empty tracked list (the unguarded
fileobjs[0].date at line 255). -/
def pollStep (env : PollEnv) (st : SessionState) : Option (SessionState × List Event) :=
  if st.doRollover then
    some (rolloverBranch env st)
  else
    match st.fileobjs with
    | [] => none
    | f0 :: _ => some (normalBranch env st f0)

/-- A sequence of poll cycles driven by a list of per-cycle environments,
accumulating the event traces. -/
def pollRun (st : SessionState) : List PollEnv → Option (SessionState × List Event)
  | [] => some (st, [])
  | e :: es =>
    match pollStep e st with
    | none => none
    | some (st', evs) =>
      match pollRun st' es with
      | none => none
      | some (stF, evsF) => some (stF, evs ++ evsF)

/-- The descriptor set the rollover branch obtains from re-running the
startup discovery path (interactive or non-interactive, matching the mode). -/
def rolloverDiscovery (env : PollEnv) (st : SessionState) : List LogFile :=
  if st.interactive then
    interactSelect
      (sortByDateDesc (getThatLogList env.now.day st.dbg ".log" env.listings.logListing))
      env.interactSelection
  else
    (dontInteract env.now.day env.now st.refreshLogListSeconds st.dbg env.listings
      (profileAfterBudget env st) st.latestCodeprofilerLogSent).logx

/-- Is this event a per-log content fetch? -/
def isFetchContent : Event → Bool
  | Event.fetchContent _ => true
  | _ => false

/-- Is this event the re-authorization call? -/
def isAuthorizeCall : Event → Bool
  | Event.authorizeCall _ => true
  | _ => false

/-- Number of content fetches in a cycle trace. -/
def fetchCount (evs : List Event) : Nat := evs.countP isFetchContent

/-- Number of authorize calls in a cycle trace. -/
def authCount (evs : List Event) : Nat := evs.countP isAuthorizeCall

/-! Helper lemmas. -/

lemma getThatLogList_eq (today : Nat) (dbg : Bool) (suffix : String) (listing : List RawEntry) :
    getThatLogList today dbg suffix listing
      = (listing.filter (fun e => jsLast4 e.name == suffix && extract8 e.name == some today)).map
          (fun e => { log := e.name, size_string := e.sizeStr, date := e.dateCol, debug := dbg }) := by
  induction listing with
  | nil => rfl
  | cons e rest ih =>
    cases hc : (jsLast4 e.name == suffix && extract8 e.name == some today) with
    | true => simp [getThatLogList, List.filter_cons, hc, ih]
    | false => simp [getThatLogList, List.filter_cons, hc, ih]

lemma getThatLogList_length_today (today : Nat) (dbg : Bool) (listing : List RawEntry)
    (hsuf : ∀ e ∈ listing, jsLast4 e.name = ".log") :
    (getThatLogList today dbg ".log" listing).length
      = (listing.filter (fun e => extract8 e.name == some today)).length := by
  rw [getThatLogList_eq, List.length_map]
  congr 1
  apply List.filter_congr
  intro e he
  rw [hsuf e he]
  simp

lemma isAfter_irrefl (m : JsMoment) : m.isAfter m = false := by
  simp [JsMoment.isAfter]

/-- The events of a dontInteract call are exactly its one or two listing
fetches. -/
lemma dontInteract_events (today : Nat) (now : JsMoment) (rs : Nat) (dbg : Bool)
    (env : ListingEnv) (profile : DwJson) (latest : Option LogFile) :
    (dontInteract today now rs dbg env profile latest).events
        = [Event.fetchList none, Event.fetchList (some "codeprofiler")]
      ∨ (dontInteract today now rs dbg env profile latest).events = [Event.fetchList none] := by
  by_cases hg : cpGuard profile = true
  · cases hl : getThatLogList today dbg ".csv" env.csvListing with
    | nil => left; unfold dontInteract; simp [hg, hl]
    | cons c cs =>
      by_cases hs : shouldSendCp latest (reduceNewest c cs) = true
      · left; unfold dontInteract; simp [hg, hl, hs]
      · left; unfold dontInteract; simp [hg, hl, hs]
  · right; unfold dontInteract; simp [hg]

/-! Fixtures: concrete listings, profiles and states used by the witnesses,
counterexamples and code-bug evaluations below. -/

def rawErrToday : RawEntry :=
  { name := "error-blade1-20231113.log", sizeStr := "1.0 kb", dateCol := ⟨20231113, 100⟩ }

def fileErrToday : LogFile :=
  { log := "error-blade1-20231113.log", size_string := "1.0 kb", date := ⟨20231113, 100⟩,
    debug := false }

def rawOldColumn : RawEntry :=
  { name := "error-blade1-20231113.log", sizeStr := "1.0 kb", dateCol := ⟨20220101, 0⟩ }

def rawDoubleDate : RawEntry :=
  { name := "a-20230101.log-20231113.log", sizeStr := "1.0 kb", dateCol := ⟨20231113, 0⟩ }

def rawWarnToday : RawEntry :=
  { name := "warn-blade1-20231113.log", sizeStr := "0.0 kb", dateCol := ⟨20231113, 5⟩ }

def rawErrYesterday : RawEntry :=
  { name := "error-blade1-20231112.log", sizeStr := "9.0 kb", dateCol := ⟨20231112, 0⟩ }

def rawCsvToday : RawEntry :=
  { name := "codeprofiler-blade1-20231113.csv", sizeStr := "2.0 kb", dateCol := ⟨20231113, 3600000⟩ }

def fileCsvToday : LogFile :=
  { log := "codeprofiler-blade1-20231113.csv", size_string := "2.0 kb",
    date := ⟨20231113, 3600000⟩, debug := false }

def csvOnlyEnv : ListingEnv := { logListing := [], csvListing := [rawCsvToday] }

def profileCpFirst : DwJson :=
  { hostname := "host", token := none, log_types := some ["codeprofiler"] }

def profileCpSecond : DwJson :=
  { hostname := "host", token := none, log_types := some ["error", "codeprofiler"] }

def profileNoTypes : DwJson := { hostname := "host", token := none, log_types := none }

/-! Claims C3, C4, C5, C6, C8 (discovery and exit codes). -/

/-- C3 counterexample: the claim says every descriptor returned by discovery
has its stored date field equal to the current UTC day; here a listing row
whose filename is dated today but whose date column reads 2022-01-01 is
returned carrying the 2022-01-01 date. -/
theorem claim_C3_cex :
    (getThatLogList 20231113 false ".log" [rawOldColumn]).map (fun d => d.date.day) = [20220101]
      ∧ (20220101 : Nat) ≠ 20231113 := by decide

/-- C3 (amended): every LogDescriptor returned by discovery has its
filename-embedded date — the 8-digit group of the first digits-plus-extension
occurrence in its name — equal to the current UTC day; the stored date field
is parsed from the listing's date column and need not equal today. -/
theorem claim_C3_filename_date_today (today : Nat) (dbg : Bool) (suffix : String)
    (listing : List RawEntry) (d : LogFile)
    (hd : d ∈ getThatLogList today dbg suffix listing) :
    extract8 d.log = some today := by
  rw [getThatLogList_eq] at hd
  obtain ⟨e, he, hde⟩ := List.mem_map.mp hd
  have hf : (jsLast4 e.name == suffix && extract8 e.name == some today) = true :=
    (List.mem_filter.mp he).2
  rw [Bool.and_eq_true] at hf
  subst hde
  simpa using eq_of_beq hf.2

theorem claim_C3_filename_date_today_witness :
    fileErrToday ∈ getThatLogList 20231113 false ".log" [rawErrToday]
      ∧ extract8 fileErrToday.log = some 20231113 :=
  ⟨by decide,
    claim_C3_filename_date_today 20231113 false ".log" [rawErrToday] fileErrToday (by decide)⟩

/-- C4 (code bug): line 105 tests log_types.indexOf('codeprofiler') > 0
where the membership idiom used four lines earlier is != -1; an allow-list
with 'codeprofiler' in first position (index 0) therefore skips the whole
profiler block — with one profiler file listed and no last-sent marker,
nothing is added and the marker stays unset — while the same listing under
an allow-list holding 'codeprofiler' at a later index produces the file. -/
theorem claim_C4_cp_position_bug :
    jsIndexOf ["codeprofiler"] "codeprofiler" = 0
      ∧ cpGuard profileCpFirst = false
      ∧ (dontInteract 20231113 ⟨20231113, 0⟩ 600 false csvOnlyEnv profileCpFirst none).logx = []
      ∧ (dontInteract 20231113 ⟨20231113, 0⟩ 600 false csvOnlyEnv profileCpFirst
          none).latestCodeprofilerLogSent = none
      ∧ (dontInteract 20231113 ⟨20231113, 0⟩ 600 false csvOnlyEnv profileCpSecond none).logx
          = [fileCsvToday]
      ∧ (dontInteract 20231113 ⟨20231113, 0⟩ 600 false csvOnlyEnv profileCpSecond
          none).latestCodeprofilerLogSent = some fileCsvToday := by decide

/-- C5 counterexample: an entry whose 8-digit date immediately before its
".log" suffix equals today — the claim's criterion — is nevertheless
skipped, because the source reads the FIRST eight-digits-plus-extension
occurrence in the name (here 20230101), not the one before the suffix. -/
theorem claim_C5_cex :
    jsLast4 rawDoubleDate.name = ".log"
      ∧ specDateImmediatelyBeforeSuffix rawDoubleDate.name ".log" = some 20231113
      ∧ getThatLogList 20231113 false ".log" [rawDoubleDate] = [] := by decide

/-- C5 (amended): discovery returns exactly the listing entries whose last
four characters equal the requested suffix and whose FIRST
eight-digits-followed-by-.log/.csv occurrence is dated today (entries
without such an occurrence are skipped); consequently a .log listing whose
entries are dated today or yesterday yields exactly the descriptors of the
today-dated entries. -/
theorem claim_C5_discovery_filter (today yday : Nat) (dbg : Bool) (suffix : String)
    (listing : List RawEntry)
    (hsuf : ∀ e ∈ listing, jsLast4 e.name = ".log")
    (_hdates : ∀ e ∈ listing, extract8 e.name = some today ∨ extract8 e.name = some yday) :
    getThatLogList today dbg suffix listing
        = (listing.filter (fun e => jsLast4 e.name == suffix && extract8 e.name == some today)).map
            (fun e => { log := e.name, size_string := e.sizeStr, date := e.dateCol, debug := dbg })
      ∧ (getThatLogList today dbg ".log" listing).length
          = (listing.filter (fun e => extract8 e.name == some today)).length :=
  ⟨getThatLogList_eq today dbg suffix listing, getThatLogList_length_today today dbg listing hsuf⟩

theorem claim_C5_discovery_filter_witness :
    (∀ e ∈ [rawErrToday, rawWarnToday, rawErrYesterday], jsLast4 e.name = ".log")
      ∧ (∀ e ∈ [rawErrToday, rawWarnToday, rawErrYesterday],
          extract8 e.name = some 20231113 ∨ extract8 e.name = some 20231112)
      ∧ (getThatLogList 20231113 false ".log" [rawErrToday, rawWarnToday, rawErrYesterday]).length
          = ([rawErrToday, rawWarnToday, rawErrYesterday].filter
              (fun e => extract8 e.name == some 20231113)).length :=
  ⟨by decide, by decide,
    (claim_C5_discovery_filter 20231113 20231112 false ".log"
      [rawErrToday, rawWarnToday, rawErrYesterday] (by decide) (by decide)).2⟩

/-- C6: two successive profiler discoveries returning the same newest file:
the first appends it to its result and records it as last sent; the second,
seeing an equal (not strictly newer) date, contributes nothing beyond the
allow-filtered .log set and leaves the marker unchanged. -/
theorem claim_C6_profiler_dedup (today : Nat) (now1 now2 : JsMoment) (rs : Nat) (dbg : Bool)
    (env1 env2 : ListingEnv) (p : DwJson) (latest0 : Option LogFile)
    (c1 : LogFile) (cs1 : List LogFile) (c2 : LogFile) (cs2 : List LogFile)
    (hguard : cpGuard p = true)
    (h1 : getThatLogList today dbg ".csv" env1.csvListing = c1 :: cs1)
    (h2 : getThatLogList today dbg ".csv" env2.csvListing = c2 :: cs2)
    (hsame : reduceNewest c2 cs2 = reduceNewest c1 cs1)
    (hsend : shouldSendCp latest0 (reduceNewest c1 cs1) = true) :
    (dontInteract today now1 rs dbg env1 p latest0).logx
        = allowFilter p (getThatLogList today dbg ".log" env1.logListing) ++ [reduceNewest c1 cs1]
      ∧ (dontInteract today now1 rs dbg env1 p latest0).latestCodeprofilerLogSent
          = some (reduceNewest c1 cs1)
      ∧ (dontInteract today now2 rs dbg env2 p
            (dontInteract today now1 rs dbg env1 p latest0).latestCodeprofilerLogSent).logx
          = allowFilter p (getThatLogList today dbg ".log" env2.logListing)
      ∧ (dontInteract today now2 rs dbg env2 p
            (dontInteract today now1 rs dbg env1 p
              latest0).latestCodeprofilerLogSent).latestCodeprofilerLogSent
          = some (reduceNewest c1 cs1) := by
  have e1 : dontInteract today now1 rs dbg env1 p latest0
      = { logx := allowFilter p (getThatLogList today dbg ".log" env1.logListing)
            ++ [reduceNewest c1 cs1]
          latestCodeprofilerLogSent := some (reduceNewest c1 cs1)
          nextLogRefresh := now1.addSeconds rs
          events := [Event.fetchList none, Event.fetchList (some "codeprofiler")] } := by
    unfold dontInteract
    simp [hguard, h1, hsend]
  have hsend2 : shouldSendCp (some (reduceNewest c1 cs1)) (reduceNewest c2 cs2) = false := by
    rw [hsame]
    simp [shouldSendCp, isAfter_irrefl]
  have e2 : dontInteract today now2 rs dbg env2 p (some (reduceNewest c1 cs1))
      = { logx := allowFilter p (getThatLogList today dbg ".log" env2.logListing)
          latestCodeprofilerLogSent := some (reduceNewest c1 cs1)
          nextLogRefresh := now2.addSeconds rs
          events := [Event.fetchList none, Event.fetchList (some "codeprofiler")] } := by
    unfold dontInteract
    simp [hguard, h2, hsend2]
  refine ⟨?_, ?_, ?_, ?_⟩
  · rw [e1]
  · rw [e1]
  · rw [e1]
    dsimp only
    rw [e2]
  · rw [e1]
    dsimp only
    rw [e2]

theorem claim_C6_profiler_dedup_witness :
    cpGuard profileNoTypes = true
      ∧ getThatLogList 20231113 false ".csv" csvOnlyEnv.csvListing = [fileCsvToday]
      ∧ shouldSendCp none (reduceNewest fileCsvToday []) = true
      ∧ (dontInteract 20231113 ⟨20231113, 0⟩ 600 false csvOnlyEnv profileNoTypes none).logx
          = allowFilter profileNoTypes (getThatLogList 20231113 false ".log" csvOnlyEnv.logListing)
            ++ [reduceNewest fileCsvToday []]
      ∧ (dontInteract 20231113 ⟨20231113, 60000⟩ 600 false csvOnlyEnv profileNoTypes
            (dontInteract 20231113 ⟨20231113, 0⟩ 600 false csvOnlyEnv profileNoTypes
              none).latestCodeprofilerLogSent).logx
          = allowFilter profileNoTypes
              (getThatLogList 20231113 false ".log" csvOnlyEnv.logListing) :=
  ⟨by decide, by decide, by decide,
    (claim_C6_profiler_dedup 20231113 ⟨20231113, 0⟩ ⟨20231113, 60000⟩ 600 false csvOnlyEnv
      csvOnlyEnv profileNoTypes none fileCsvToday [] fileCsvToday [] (by decide) (by decide)
      (by decide) (by decide) (by decide)).1,
    (claim_C6_profiler_dedup 20231113 ⟨20231113, 0⟩ ⟨20231113, 60000⟩ 600 false csvOnlyEnv
      csvOnlyEnv profileNoTypes none fileCsvToday [] fileCsvToday [] (by decide) (by decide)
      (by decide) (by decide) (by decide)).2.2.1⟩

/-- C8 counterexample: cancelling the interactive log selection so that
nothing is selected reaches run()'s empty-selection gate, which calls
process.exit(-1) — not an exit with status 0 as the claim states. -/
theorem claim_C8_cex :
    runGate (interactSelect [fileErrToday] none) = RunOutcome.exit (-1)
      ∧ runGate (interactSelect [fileErrToday] none) ≠ RunOutcome.exit 0 := by decide

/-- C8 (amended): every fatal path — interactive cancellation with nothing
selected included — exits with process.exit(-1) (a non-zero status): the
empty-selection gate, non-interactive resolution with several profiles and
no name, resolution with an unknown name, and empty discovery. There is no
exit-0 path. -/
theorem claim_C8_exit_codes (fs : List LogFile) (p1 p2 : String × DwJson)
    (rest : List (String × DwJson)) (nm : String)
    (hlook : lookupProfile (p1 :: p2 :: rest) nm = none) :
    runGate (interactSelect fs none) = RunOutcome.exit (-1)
      ∧ resolveNonInteractive (p1 :: p2 :: rest) none = ResolveOutcome.exit (-1)
      ∧ resolveNonInteractive (p1 :: p2 :: rest) (some nm) = ResolveOutcome.exit (-1)
      ∧ runGate [] = RunOutcome.exit (-1)
      ∧ (-1 : Int) ≠ 0 := by
  refine ⟨rfl, rfl, ?_, rfl, by decide⟩
  simp [resolveNonInteractive, hlook]

theorem claim_C8_exit_codes_witness :
    lookupProfile [("a", profileNoTypes), ("b", profileCpFirst)] "zzz" = none
      ∧ runGate (interactSelect [fileErrToday] none) = RunOutcome.exit (-1)
      ∧ resolveNonInteractive [("a", profileNoTypes), ("b", profileCpFirst)] none
          = ResolveOutcome.exit (-1)
      ∧ resolveNonInteractive [("a", profileNoTypes), ("b", profileCpFirst)] (some "zzz")
          = ResolveOutcome.exit (-1)
      ∧ runGate [] = RunOutcome.exit (-1) :=
  have h := claim_C8_exit_codes [fileErrToday] ("a", profileNoTypes) ("b", profileCpFirst) []
    "zzz" (by decide)
  ⟨by decide, h.1, h.2.1, h.2.2.1, h.2.2.2.1⟩

/-! Event-trace counting lemmas for the session claims. -/

lemma fetchCount_nil : fetchCount [] = 0 := rfl

lemma fetchCount_cons (e : Event) (evs : List Event) :
    fetchCount (e :: evs) = fetchCount evs + (if isFetchContent e then 1 else 0) := by
  simp [fetchCount, List.countP_cons]

lemma fetchCount_append (a b : List Event) : fetchCount (a ++ b) = fetchCount a + fetchCount b := by
  simp [fetchCount, List.countP_append]

lemma fetchCount_budget (st : SessionState) : fetchCount (budgetEvents st) = 0 := by
  unfold budgetEvents
  split
  · rfl
  · rfl

lemma fetchCount_mapFetch (l : List LogFile) :
    fetchCount (l.map (fun f => Event.fetchContent f.log)) = l.length := by
  simp [fetchCount, isFetchContent]

lemma fetchCount_dontInteract (today : Nat) (now : JsMoment) (rs : Nat) (dbg : Bool)
    (env : ListingEnv) (profile : DwJson) (latest : Option LogFile) :
    fetchCount (dontInteract today now rs dbg env profile latest).events = 0 := by
  rcases dontInteract_events today now rs dbg env profile latest with h | h <;> rw [h] <;> rfl

lemma authCount_nil : authCount [] = 0 := rfl

lemma authCount_cons (e : Event) (evs : List Event) :
    authCount (e :: evs) = authCount evs + (if isAuthorizeCall e then 1 else 0) := by
  simp [authCount, List.countP_cons]

lemma authCount_append (a b : List Event) : authCount (a ++ b) = authCount a + authCount b := by
  simp [authCount, List.countP_append]

lemma authCount_mapFetch (l : List LogFile) :
    authCount (l.map (fun f => Event.fetchContent f.log)) = 0 := by
  simp [authCount, isAuthorizeCall]

lemma authCount_dontInteract (today : Nat) (now : JsMoment) (rs : Nat) (dbg : Bool)
    (env : ListingEnv) (profile : DwJson) (latest : Option LogFile) :
    authCount (dontInteract today now rs dbg env profile latest).events = 0 := by
  rcases dontInteract_events today now rs dbg env profile latest with h | h <;> rw [h] <;> rfl

lemma refreshList_notin_budget (st : SessionState) : Event.refreshList ∉ budgetEvents st := by
  unfold budgetEvents
  split
  · decide
  · decide

lemma refreshList_notin_dontInteract (today : Nat) (now : JsMoment) (rs : Nat) (dbg : Bool)
    (env : ListingEnv) (profile : DwJson) (latest : Option LogFile) :
    Event.refreshList ∉ (dontInteract today now rs dbg env profile latest).events := by
  rcases dontInteract_events today now rs dbg env profile latest with h | h <;> rw [h] <;> decide

/-! Shape lemmas for the two pollLogs branches. -/

lemma pollStep_rollover (env : PollEnv) (st : SessionState) (h : st.doRollover = true) :
    pollStep env st = some (rolloverBranch env st) := by
  simp [pollStep, h]

lemma pollStep_normal (env : PollEnv) (st : SessionState) (f0 : LogFile) (rest : List LogFile)
    (h : st.doRollover = false) (hf : st.fileobjs = f0 :: rest) :
    pollStep env st = some (normalBranch env st f0) := by
  simp [pollStep, h, hf]

lemma pollStep_none (env : PollEnv) (st : SessionState)
    (h : st.doRollover = false) (hf : st.fileobjs = []) : pollStep env st = none := by
  simp [pollStep, h, hf]

lemma rolloverBranch_noFetch (env : PollEnv) (st : SessionState) :
    fetchCount (rolloverBranch env st).2 = 0 := by
  simp only [rolloverBranch]
  split
  · split <;>
      simp [fetchCount_append, fetchCount_budget, fetchCount_cons, fetchCount_nil, isFetchContent]
  · split <;>
      simp [fetchCount_append, fetchCount_budget, fetchCount_cons, fetchCount_nil,
        fetchCount_dontInteract, isFetchContent]

lemma rolloverBranch_parts (env : PollEnv) (st : SessionState) :
    (rolloverBranch env st).1.fetcher = fetcherAfterBudget st
      ∧ (rolloverBranch env st).1.profile = profileAfterBudget env st
      ∧ ∃ tail, (rolloverBranch env st).2 = budgetEvents st ++ tail ∧ authCount tail = 0 := by
  simp only [rolloverBranch]
  split
  · split
    · exact ⟨rfl, rfl, _, rfl, by decide⟩
    · exact ⟨rfl, rfl, _, rfl, by decide⟩
  · split
    · exact ⟨rfl, rfl, _, rfl, by
        simp [authCount_append, authCount_cons, authCount_nil, authCount_dontInteract,
          isAuthorizeCall]⟩
    · exact ⟨rfl, rfl, _, rfl, authCount_dontInteract _ _ _ _ _ _ _⟩

lemma normalBranch_parts (env : PollEnv) (st : SessionState) (f0 : LogFile) :
    (normalBranch env st f0).1.fetcher = fetcherAfterBudget st
      ∧ (normalBranch env st f0).1.profile = profileAfterBudget env st
      ∧ ∃ tail, (normalBranch env st f0).2 = budgetEvents st ++ tail ∧ authCount tail = 0 := by
  simp only [normalBranch]
  split
  · exact ⟨rfl, rfl, _, rfl, by
      simp [authCount_append, authCount_cons, authCount_nil, authCount_mapFetch, isAuthorizeCall]⟩
  · split
    · exact ⟨rfl, rfl, _, rfl, by
        simp [authCount_append, authCount_cons, authCount_nil, authCount_mapFetch,
          authCount_dontInteract, isAuthorizeCall]⟩
    · exact ⟨rfl, rfl, _, rfl, by
        simp [authCount_append, authCount_cons, authCount_nil, authCount_mapFetch,
          isAuthorizeCall]⟩

lemma normalBranch_detect (env : PollEnv) (st : SessionState) (f0 : LogFile)
    (hday : env.now.isAfterDay f0.date = true) :
    normalBranch env st f0
      = ({ st with
            profile := profileAfterBudget env st
            fetcher := fetcherAfterBudget st
            fileobjs := removeFirstCsv st.fileobjs
            doRollover := true },
          budgetEvents st
            ++ (st.fileobjs.map (fun l => Event.fetchContent l.log) ++ [Event.emit])) := by
  simp [normalBranch, hday]

/-! Claims C1, C2, C7, C9, C10 (the poll loop). -/

def quietFetcher : Fetcher := { usingAPI := false, errorcount := 0, errorlimit := 5 }

def fileErrYesterday : LogFile :=
  { log := "error-blade1-20231112.log", size_string := "1.0 kb", date := ⟨20231112, 0⟩,
    debug := false }

def stDetect : SessionState :=
  { profile := profileNoTypes, fetcher := quietFetcher, fileobjs := [fileErrYesterday],
    doRollover := false, nextLogRefresh := none, latestCodeprofilerLogSent := none,
    interactive := false, refreshLogListSeconds := 600, dbg := false }

def envDetect : PollEnv :=
  { now := ⟨20231113, 0⟩, listings := csvOnlyEnv, authTokenResult := none,
    interactSelection := none }

/-- C1 counterexample: at a concrete state whose single tracked descriptor
is dated yesterday, the detection cycle sets the rollover flag yet performs
one content fetch — not zero, as the claim states. -/
theorem claim_C1_cex :
    stDetect.doRollover = false
      ∧ stDetect.fileobjs.map (fun f => f.date.day) = [20231112]
      ∧ envDetect.now.day = 20231113
      ∧ (pollStep envDetect stDetect).map (fun r => (r.1.doRollover, fetchCount r.2))
          = some (true, 1) := by decide

/-- C1 (amended): when the current UTC day is strictly after the first
tracked descriptor's rotation date, the cycle sets the rollover flag but
still performs one content fetch per tracked descriptor (the source collects
the last entries of the old logs before handling rollover); the following
cycle, entered with the flag set, performs zero content fetches and runs
rollover handling instead. -/
theorem claim_C1_rollover_detection (env : PollEnv) (st st' : SessionState) (evs : List Event)
    (f0 : LogFile) (rest : List LogFile)
    (hroll : st.doRollover = false) (hfo : st.fileobjs = f0 :: rest)
    (hday : env.now.isAfterDay f0.date = true)
    (hstep : pollStep env st = some (st', evs)) :
    st'.doRollover = true ∧ fetchCount evs = st.fileobjs.length
      ∧ ∀ env2 r2, pollStep env2 st' = some r2 → fetchCount r2.2 = 0 := by
  rw [pollStep_normal env st f0 rest hroll hfo, normalBranch_detect env st f0 hday] at hstep
  simp only [Option.some.injEq, Prod.mk.injEq] at hstep
  obtain ⟨h1, h2⟩ := hstep
  subst h1
  subst h2
  refine ⟨rfl, ?_, ?_⟩
  · simp [fetchCount_append, fetchCount_budget, fetchCount_mapFetch, fetchCount_cons,
      fetchCount_nil, isFetchContent]
  · intro env2 r2 hs2
    rw [pollStep_rollover env2 _ rfl] at hs2
    simp only [Option.some.injEq] at hs2
    rw [← hs2]
    exact rolloverBranch_noFetch env2 _

theorem claim_C1_rollover_detection_witness :
    envDetect.now.isAfterDay fileErrYesterday.date = true
      ∧ (({ stDetect with doRollover := true } : SessionState).doRollover = true
          ∧ fetchCount [Event.fetchContent "error-blade1-20231112.log", Event.emit]
              = stDetect.fileobjs.length
          ∧ ∀ env2 r2, pollStep env2 ({ stDetect with doRollover := true } : SessionState)
              = some r2 → fetchCount r2.2 = 0) :=
  ⟨by decide,
    claim_C1_rollover_detection envDetect stDetect ({ stDetect with doRollover := true })
      [Event.fetchContent "error-blade1-20231112.log", Event.emit] fileErrYesterday []
      rfl rfl (by decide) (by decide)⟩

def stNoApi : SessionState :=
  { profile := { profileNoTypes with token := some "old" },
    fetcher := { usingAPI := false, errorcount := 9, errorlimit := 3 },
    fileobjs := [fileErrToday], doRollover := false, nextLogRefresh := none,
    latestCodeprofilerLogSent := none, interactive := false, refreshLogListSeconds := 600,
    dbg := false }

def stApi : SessionState :=
  { stNoApi with fetcher := { usingAPI := true, errorcount := 9, errorlimit := 3 } }

def envToday : PollEnv :=
  { now := ⟨20231113, 200⟩, listings := csvOnlyEnv, authTokenResult := some "fresh",
    interactSelection := none }

/-- C2 counterexample: with the error count (9) above the limit (3) but the
profile not using the Client API, the cycle performs no authorize call,
keeps the counter at 9 and leaves the token untouched — the source guards
the whole error-budget block with logfetcher.isUsingAPI(profile). -/
theorem claim_C2_cex :
    stNoApi.fetcher.errorlimit < stNoApi.fetcher.errorcount
      ∧ stNoApi.fetcher.usingAPI = false
      ∧ (pollStep envToday stNoApi).map
            (fun r => (authCount r.2, r.1.fetcher.errorcount, r.1.profile.token))
          = some (0, 9, some "old") := by decide

/-- C2 (amended): in every poll cycle where the profile uses the Client API
and the fetcher's error count exceeds its limit, the cycle resets the error
counter to zero, clears the profile's token, and invokes re-authorization
exactly once — in that order, before any other collaborator interaction and
in particular before any content fetch — and the token logfetcher.authorize
installs becomes the profile's token; non-API (WebDAV) profiles skip this
path even when the count exceeds the limit. -/
theorem claim_C2_error_budget (env : PollEnv) (st st' : SessionState) (evs : List Event)
    (hapi : st.fetcher.usingAPI = true)
    (hcnt : st.fetcher.errorlimit < st.fetcher.errorcount)
    (hstep : pollStep env st = some (st', evs)) :
    (∃ rest, evs = Event.errorReset :: Event.tokenClear :: Event.authorizeCall none :: rest
        ∧ authCount rest = 0)
      ∧ st'.fetcher.errorcount = 0
      ∧ st'.profile.token = env.authTokenResult := by
  have hb : errBudgetFire st = true := by simp [errBudgetFire, hapi, hcnt]
  have hbe : budgetEvents st = [Event.errorReset, Event.tokenClear, Event.authorizeCall none] := by
    simp [budgetEvents, hb]
  cases hdr : st.doRollover with
  | true =>
    rw [pollStep_rollover env st hdr] at hstep
    simp only [Option.some.injEq] at hstep
    have h1 : st' = (rolloverBranch env st).1 := by rw [hstep]
    have h2 : evs = (rolloverBranch env st).2 := by rw [hstep]
    subst h1
    subst h2
    obtain ⟨hf, hp, tail, hev, hac⟩ := rolloverBranch_parts env st
    refine ⟨⟨tail, by rw [hev, hbe]; rfl, hac⟩, ?_, ?_⟩
    · rw [hf]
      simp [fetcherAfterBudget, hb]
    · rw [hp]
      simp [profileAfterBudget, hb]
  | false =>
    cases hfs : st.fileobjs with
    | nil =>
      rw [pollStep_none env st hdr hfs] at hstep
      exact absurd hstep (by simp)
    | cons f0 rest0 =>
      rw [pollStep_normal env st f0 rest0 hdr hfs] at hstep
      simp only [Option.some.injEq] at hstep
      have h1 : st' = (normalBranch env st f0).1 := by rw [hstep]
      have h2 : evs = (normalBranch env st f0).2 := by rw [hstep]
      subst h1
      subst h2
      obtain ⟨hf, hp, tail, hev, hac⟩ := normalBranch_parts env st f0
      refine ⟨⟨tail, by rw [hev, hbe]; rfl, hac⟩, ?_, ?_⟩
      · rw [hf]
        simp [fetcherAfterBudget, hb]
      · rw [hp]
        simp [profileAfterBudget, hb]

def stApiAfter : SessionState :=
  { stApi with
      fetcher := { usingAPI := true, errorcount := 0, errorlimit := 3 }
      profile := { hostname := "host", token := some "fresh", log_types := none } }

def evsApiCycle : List Event :=
  [Event.errorReset, Event.tokenClear, Event.authorizeCall none,
    Event.fetchContent "error-blade1-20231113.log", Event.emit]

theorem claim_C2_error_budget_witness :
    stApi.fetcher.usingAPI = true
      ∧ stApi.fetcher.errorlimit < stApi.fetcher.errorcount
      ∧ ((∃ rest, evsApiCycle
            = Event.errorReset :: Event.tokenClear :: Event.authorizeCall none :: rest
            ∧ authCount rest = 0)
          ∧ stApiAfter.fetcher.errorcount = 0
          ∧ stApiAfter.profile.token = envToday.authTokenResult) :=
  ⟨rfl, by decide,
    claim_C2_error_budget envToday stApi stApiAfter evsApiCycle rfl (by decide) (by decide)⟩

/-- C7: a cycle entered with the rollover flag set re-runs discovery; a
non-empty result clears the flag and resets every descriptor's byte-offset
watermark to the sentinel -1 before polling resumes; an empty result logs
the warning, leaves the flag set and the tracked list empty for the next
scheduled cycle. -/
theorem claim_C7_rollover_recovery (env : PollEnv) (st st' : SessionState) (evs : List Event)
    (hroll : st.doRollover = true) (hstep : pollStep env st = some (st', evs)) :
    (rolloverDiscovery env st ≠ []
        → st'.doRollover = false
          ∧ st'.fileobjs
              = (rolloverDiscovery env st).map (fun f => { f with size := some (-1) })
          ∧ ∀ f ∈ st'.fileobjs, f.size = some (-1))
      ∧ (rolloverDiscovery env st = []
        → st'.doRollover = true ∧ st'.fileobjs = [] ∧ Event.warnNoLogs ∈ evs) := by
  rw [pollStep_rollover env st hroll] at hstep
  simp only [Option.some.injEq] at hstep
  have h1 : st' = (rolloverBranch env st).1 := by rw [hstep]
  have h2 : evs = (rolloverBranch env st).2 := by rw [hstep]
  subst h1
  subst h2
  cases hI : st.interactive with
  | true =>
    have hd : rolloverDiscovery env st
        = interactSelect
            (sortByDateDesc (getThatLogList env.now.day st.dbg ".log" env.listings.logListing))
            env.interactSelection := by
      simp [rolloverDiscovery, hI]
    cases hE : (interactSelect
        (sortByDateDesc (getThatLogList env.now.day st.dbg ".log" env.listings.logListing))
        env.interactSelection).isEmpty with
    | true =>
      have hnil : rolloverDiscovery env st = [] := by
        rw [hd]
        exact List.isEmpty_iff.mp hE
      have hbr : rolloverBranch env st
          = ({ st with
                profile := profileAfterBudget env st
                fetcher := fetcherAfterBudget st
                fileobjs := [] },
              budgetEvents st ++ [Event.fetchList none, Event.warnNoLogs]) := by
        simp [rolloverBranch, hI, hE]
      constructor
      · intro hne
        exact absurd hnil hne
      · intro _
        refine ⟨?_, ?_, ?_⟩
        · rw [hbr]
          exact hroll
        · rw [hbr]
        · rw [hbr]
          simp
    | false =>
      have hne : rolloverDiscovery env st ≠ [] := by
        rw [hd]
        intro h
        rw [h] at hE
        simp at hE
      have hbr : rolloverBranch env st
          = ({ st with
                profile := profileAfterBudget env st
                fetcher := fetcherAfterBudget st
                fileobjs := (interactSelect
                  (sortByDateDesc
                    (getThatLogList env.now.day st.dbg ".log" env.listings.logListing))
                  env.interactSelection).map (fun f => { f with size := some (-1) })
                doRollover := false },
              budgetEvents st ++ [Event.fetchList none]) := by
        simp [rolloverBranch, hI, hE]
      constructor
      · intro _
        refine ⟨?_, ?_, ?_⟩
        · rw [hbr]
        · rw [hbr, hd]
        · rw [hbr]
          intro f hf
          obtain ⟨g, _, rfl⟩ := List.mem_map.mp hf
          rfl
      · intro he
        exact absurd he hne
  | false =>
    have hd : rolloverDiscovery env st
        = (dontInteract env.now.day env.now st.refreshLogListSeconds st.dbg env.listings
            (profileAfterBudget env st) st.latestCodeprofilerLogSent).logx := by
      simp [rolloverDiscovery, hI]
    cases hE : (dontInteract env.now.day env.now st.refreshLogListSeconds st.dbg env.listings
        (profileAfterBudget env st) st.latestCodeprofilerLogSent).logx.isEmpty with
    | true =>
      have hnil : rolloverDiscovery env st = [] := by
        rw [hd]
        exact List.isEmpty_iff.mp hE
      have hbr : rolloverBranch env st
          = ({ st with
                profile := profileAfterBudget env st
                fetcher := fetcherAfterBudget st
                fileobjs := []
                nextLogRefresh := some (dontInteract env.now.day env.now
                  st.refreshLogListSeconds st.dbg env.listings (profileAfterBudget env st)
                  st.latestCodeprofilerLogSent).nextLogRefresh
                latestCodeprofilerLogSent := (dontInteract env.now.day env.now
                  st.refreshLogListSeconds st.dbg env.listings (profileAfterBudget env st)
                  st.latestCodeprofilerLogSent).latestCodeprofilerLogSent },
              budgetEvents st ++ ((dontInteract env.now.day env.now st.refreshLogListSeconds
                st.dbg env.listings (profileAfterBudget env st)
                st.latestCodeprofilerLogSent).events ++ [Event.warnNoLogs])) := by
        simp [rolloverBranch, hI, hE]
      constructor
      · intro hne
        exact absurd hnil hne
      · intro _
        refine ⟨?_, ?_, ?_⟩
        · rw [hbr]
          exact hroll
        · rw [hbr]
        · rw [hbr]
          simp
    | false =>
      have hne : rolloverDiscovery env st ≠ [] := by
        rw [hd]
        intro h
        rw [h] at hE
        simp at hE
      have hbr : rolloverBranch env st
          = ({ st with
                profile := profileAfterBudget env st
                fetcher := fetcherAfterBudget st
                fileobjs := (dontInteract env.now.day env.now st.refreshLogListSeconds st.dbg
                  env.listings (profileAfterBudget env st)
                  st.latestCodeprofilerLogSent).logx.map (fun f => { f with size := some (-1) })
                doRollover := false
                nextLogRefresh := some (dontInteract env.now.day env.now
                  st.refreshLogListSeconds st.dbg env.listings (profileAfterBudget env st)
                  st.latestCodeprofilerLogSent).nextLogRefresh
                latestCodeprofilerLogSent := (dontInteract env.now.day env.now
                  st.refreshLogListSeconds st.dbg env.listings (profileAfterBudget env st)
                  st.latestCodeprofilerLogSent).latestCodeprofilerLogSent },
              budgetEvents st ++ (dontInteract env.now.day env.now st.refreshLogListSeconds
                st.dbg env.listings (profileAfterBudget env st)
                st.latestCodeprofilerLogSent).events) := by
        simp [rolloverBranch, hI, hE]
      constructor
      · intro _
        refine ⟨?_, ?_, ?_⟩
        · rw [hbr]
        · rw [hbr, hd]
        · rw [hbr]
          intro f hf
          obtain ⟨g, _, rfl⟩ := List.mem_map.mp hf
          rfl
      · intro he
        exact absurd he hne

def logOnlyEnv : ListingEnv := { logListing := [rawErrToday], csvListing := [] }

def stRoll : SessionState :=
  { profile := profileNoTypes, fetcher := quietFetcher, fileobjs := [], doRollover := true,
    nextLogRefresh := none, latestCodeprofilerLogSent := none, interactive := true,
    refreshLogListSeconds := 600, dbg := false }

def envRoll : PollEnv :=
  { now := ⟨20231113, 500⟩, listings := logOnlyEnv, authTokenResult := none,
    interactSelection := some [0] }

def stRollAfter : SessionState :=
  { stRoll with
      fileobjs := [{ fileErrToday with size := some (-1) }]
      doRollover := false }

theorem claim_C7_rollover_recovery_witness :
    stRoll.doRollover = true
      ∧ ((rolloverDiscovery envRoll stRoll ≠ []
            → stRollAfter.doRollover = false
              ∧ stRollAfter.fileobjs
                  = (rolloverDiscovery envRoll stRoll).map (fun f => { f with size := some (-1) })
              ∧ ∀ f ∈ stRollAfter.fileobjs, f.size = some (-1))
          ∧ (rolloverDiscovery envRoll stRoll = []
            → stRollAfter.doRollover = true ∧ stRollAfter.fileobjs = []
              ∧ Event.warnNoLogs ∈ [Event.fetchList none])) :=
  ⟨rfl,
    claim_C7_rollover_recovery envRoll stRoll stRollAfter [Event.fetchList none] rfl (by decide)⟩

def stCsvOnly : SessionState :=
  { profile := profileNoTypes, fetcher := quietFetcher, fileobjs := [fileCsvToday],
    doRollover := false, nextLogRefresh := some ⟨20231113, 4200000⟩,
    latestCodeprofilerLogSent := some fileCsvToday, interactive := false,
    refreshLogListSeconds := 600, dbg := false }

def envCsvOnly : PollEnv :=
  { now := ⟨20231113, 3700000⟩, listings := csvOnlyEnv, authTokenResult := none,
    interactSelection := none }

/-- C9 (code bug): a non-interactive startup against a listing holding only
today's profiler CSV tracks exactly that one descriptor and passes run()'s
non-empty gate; the first poll cycle consumes and removes it, leaving an
empty tracked list with the rollover flag clear, and the next cycle
dereferences fileobjs[0].date on the empty list — a TypeError (modelled as
the step returning none). -/
theorem claim_C9_empty_list_crash :
    (dontInteract 20231113 ⟨20231113, 3600000⟩ 600 false csvOnlyEnv profileNoTypes none).logx
        = [fileCsvToday]
      ∧ runGate [fileCsvToday] = RunOutcome.proceed [fileCsvToday]
      ∧ (pollStep envCsvOnly stCsvOnly).map (fun r => (r.1.fileobjs, r.1.doRollover))
          = some ([], false)
      ∧ (pollStep envCsvOnly stCsvOnly).bind (fun r => pollStep envCsvOnly r.1) = none := by
  decide

lemma pollStep_interactive_inv (env : PollEnv) (st st' : SessionState) (evs : List Event)
    (hint : st.interactive = true) (hnlr : st.nextLogRefresh = none)
    (hstep : pollStep env st = some (st', evs)) :
    st'.interactive = true ∧ st'.nextLogRefresh = none ∧ Event.refreshList ∉ evs := by
  cases hdr : st.doRollover with
  | true =>
    rw [pollStep_rollover env st hdr] at hstep
    simp only [Option.some.injEq] at hstep
    have h1 : st' = (rolloverBranch env st).1 := by rw [hstep]
    have h2 : evs = (rolloverBranch env st).2 := by rw [hstep]
    subst h1
    subst h2
    cases hE : (interactSelect
        (sortByDateDesc (getThatLogList env.now.day st.dbg ".log" env.listings.logListing))
        env.interactSelection).isEmpty with
    | true =>
      have hbr : rolloverBranch env st
          = ({ st with
                profile := profileAfterBudget env st
                fetcher := fetcherAfterBudget st
                fileobjs := [] },
              budgetEvents st ++ [Event.fetchList none, Event.warnNoLogs]) := by
        simp [rolloverBranch, hint, hE]
      rw [hbr]
      exact ⟨hint, hnlr, by simp [refreshList_notin_budget]⟩
    | false =>
      have hbr : rolloverBranch env st
          = ({ st with
                profile := profileAfterBudget env st
                fetcher := fetcherAfterBudget st
                fileobjs := (interactSelect
                  (sortByDateDesc
                    (getThatLogList env.now.day st.dbg ".log" env.listings.logListing))
                  env.interactSelection).map (fun f => { f with size := some (-1) })
                doRollover := false },
              budgetEvents st ++ [Event.fetchList none]) := by
        simp [rolloverBranch, hint, hE]
      rw [hbr]
      exact ⟨hint, hnlr, by simp [refreshList_notin_budget]⟩
  | false =>
    cases hfs : st.fileobjs with
    | nil =>
      rw [pollStep_none env st hdr hfs] at hstep
      exact absurd hstep (by simp)
    | cons f0 rest0 =>
      rw [pollStep_normal env st f0 rest0 hdr hfs] at hstep
      simp only [Option.some.injEq] at hstep
      have h1 : st' = (normalBranch env st f0).1 := by rw [hstep]
      have h2 : evs = (normalBranch env st f0).2 := by rw [hstep]
      subst h1
      subst h2
      have hrd : refreshDue st env.now = false := by simp [refreshDue, hnlr]
      cases hday : env.now.isAfterDay f0.date with
      | true =>
        rw [normalBranch_detect env st f0 hday]
        exact ⟨hint, hnlr, by simp [refreshList_notin_budget]⟩
      | false =>
        have hbr : normalBranch env st f0
            = ({ st with
                  profile := profileAfterBudget env st
                  fetcher := fetcherAfterBudget st
                  fileobjs := removeFirstCsv st.fileobjs },
                budgetEvents st
                  ++ (st.fileobjs.map (fun l => Event.fetchContent l.log) ++ [Event.emit])) := by
          simp [normalBranch, hday, hrd]
        rw [hbr]
        exact ⟨hint, hnlr, by simp [refreshList_notin_budget]⟩

/-- C10: in an interactive session the periodic log-list refresh never
executes: nextLogRefresh is assigned only by dontInteract, which an
interactive run never invokes — at startup, on rollover (interact is used
instead) or in the refresh branch itself, whose condition stays false — so
over any sequence of poll cycles starting with nextLogRefresh unset, it
stays unset and no refresh event ever occurs. -/
theorem claim_C10_no_refresh_interactive (envs : List PollEnv) (st stF : SessionState)
    (evs : List Event)
    (hint : st.interactive = true) (hnlr : st.nextLogRefresh = none)
    (hrun : pollRun st envs = some (stF, evs)) :
    stF.nextLogRefresh = none ∧ Event.refreshList ∉ evs := by
  induction envs generalizing st evs with
  | nil =>
    unfold pollRun at hrun
    simp only [Option.some.injEq, Prod.mk.injEq] at hrun
    obtain ⟨h1, h2⟩ := hrun
    subst h1
    subst h2
    exact ⟨hnlr, by simp⟩
  | cons e es ih =>
    unfold pollRun at hrun
    cases hp : pollStep e st with
    | none =>
      rw [hp] at hrun
      exact absurd hrun (by simp)
    | some pr =>
      obtain ⟨st1, evs1⟩ := pr
      rw [hp] at hrun
      dsimp only at hrun
      cases hr : pollRun st1 es with
      | none =>
        rw [hr] at hrun
        exact absurd hrun (by simp)
      | some pr2 =>
        obtain ⟨st2, evs2⟩ := pr2
        rw [hr] at hrun
        simp only [Option.some.injEq, Prod.mk.injEq] at hrun
        obtain ⟨h1, h2⟩ := hrun
        subst h1
        subst h2
        obtain ⟨hi1, hn1, hm1⟩ := pollStep_interactive_inv e st st1 evs1 hint hnlr hp
        obtain ⟨hn2, hm2⟩ := ih st1 evs2 hi1 hn1 hr
        refine ⟨hn2, ?_⟩
        simp only [List.mem_append]
        intro h
        cases h with
        | inl h => exact hm1 h
        | inr h => exact hm2 h

def stInterPoll : SessionState :=
  { profile := profileNoTypes, fetcher := quietFetcher, fileobjs := [fileErrToday],
    doRollover := false, nextLogRefresh := none, latestCodeprofilerLogSent := none,
    interactive := true, refreshLogListSeconds := 600, dbg := false }

def envInterPoll : PollEnv :=
  { now := ⟨20231113, 999⟩, listings := logOnlyEnv, authTokenResult := none,
    interactSelection := none }

theorem claim_C10_no_refresh_interactive_witness :
    stInterPoll.interactive = true
      ∧ stInterPoll.nextLogRefresh = none
      ∧ (stInterPoll.nextLogRefresh = none
          ∧ Event.refreshList
              ∉ [Event.fetchContent "error-blade1-20231113.log", Event.emit] ++ ([] : List Event)) :=
  ⟨rfl, rfl,
    claim_C10_no_refresh_interactive [envInterPoll] stInterPoll stInterPoll
      ([Event.fetchContent "error-blade1-20231113.log", Event.emit] ++ ([] : List Event))
      rfl rfl (by decide)⟩

end Cctail
